import Mathlib

/-!
Shallow embedding of the SkillVerse wallet / payment-ledger subsystem
(`src/payment_system.py` and the order-settlement fragment of
`src/routes.py`).

Modelling conventions:
* Monetary values are rationals (`ℚ`), modelling exact decimal arithmetic.
* The wallet snapshot file is an insertion-ordered association list from
  `str(user_id)` to wallet records, mirroring the Python dict built by
  `__read_all_wallets` and rewritten by `__write_all_wallets`.
* The transaction ledger file is a list of lines; a line is `some t` when it
  parses as a transaction record and `none` when it is malformed
  (`json.loads` raises `JSONDecodeError`).
* `datetime.now()` and the random id generator are modelled as explicit
  parameters (`Clock`, `genId`, and the gateway random draw `r`).
* A Python function that may raise returns `Except PayErr · × SysState`;
  the state component is the file state at the moment of return or raise.
-/

namespace SkillVerse

/-- The timestamps produced by one `datetime.now()` reading:
`strftime('%Y-%m-%d')`, `strftime('%H:%M:%S')`, `isoformat()`. -/
structure Clock where
  date : String
  time : String
  timestamp : String
  deriving DecidableEq, Repr

/-- One wallet record, one JSON line of `wallets.txt`. -/
structure Wallet where
  user_id : String
  balance : ℚ
  created_at : String
  last_updated : String
  deriving DecidableEq, Repr

/-- A transaction record as written to `transactions.txt`.  Fields that the
gateway records omit (`username`, `type`, `new_balance`) are `Option`s. -/
structure Txn where
  id : String
  user_id : String
  username : Option String
  amount : ℚ
  method : String
  status : String
  type : Option String
  description : String
  date : String
  time : String
  timestamp : String
  new_balance : Option ℚ
  deriving DecidableEq, Repr

/-- The exceptions the payment core raises.
`invalidAmount` is the `CustomException("Amount must be greater than 0")`
raise; `keyError` models the Python `KeyError` that
`wallets[user_id]['balance'] = ...` would raise on a missing key. -/
inductive PayErr where
  | invalidAmount
  | insufficientBalance (required available : ℚ)
  | transactionNotFound (txn_id : String)
  | keyError (key : String)
  deriving DecidableEq, Repr

deriving instance DecidableEq for Except

/-- The ledger file: one entry per non-blank line; `none` = malformed line. -/
abbrev Ledger := List (Option Txn)

/-- The parsed wallet snapshot: insertion-ordered map `user_id ↦ wallet`. -/
abbrev Wallets := List (String × Wallet)

/-- The file-backed state the payment core reads and writes. -/
structure SysState where
  wallets : Wallets
  ledger : Ledger
  deriving DecidableEq, Repr

/-- Dict lookup `wallets.get(user_id)` / `user_id in wallets`. -/
def lookupWallet : Wallets → String → Option Wallet
  | [], _ => none
  | (k, w) :: rest, uid => if k = uid then some w else lookupWallet rest uid

/-- Dict assignment `wallets[user_id] = w`: update in place if the key
exists (Python dicts keep insertion order), else append. -/
def setWallet : Wallets → String → Wallet → Wallets
  | [], uid, w => [(uid, w)]
  | (k, w0) :: rest, uid, w =>
      if k = uid then (k, w) :: rest else (k, w0) :: setWallet rest uid w

/-- `WalletManager.get_balance`: the stored balance, `0` if no wallet. -/
def get_balance (st : SysState) (user_id : String) : ℚ :=
  match lookupWallet st.wallets user_id with
  | some w => w.balance
  | none => 0

/-- `WalletManager.create_wallet` (payment_system.py:452-475): insert a fresh
wallet only when none exists; always return the stored record. -/
def create_wallet (clk : Clock) (user_id : String) (initial_balance : ℚ)
    (st : SysState) : Wallet × SysState :=
  match lookupWallet st.wallets user_id with
  | some w => (w, st)
  | none =>
      let w : Wallet :=
        { user_id := user_id, balance := initial_balance,
          created_at := clk.timestamp, last_updated := clk.timestamp }
      (w, { st with wallets := setWallet st.wallets user_id w })

/-- `PaymentGateway.__success_rate`, set to `1.0` in `__init__`. -/
def success_rate : ℚ := 1

/-- `PaymentGateway.save_transaction`: append one JSON line. -/
def save_transaction (ledger : Ledger) (txn : Txn) : Ledger :=
  ledger ++ [some txn]

/-- `PaymentGateway.process_payment` (payment_system.py:173-209).
`r` is the `random.random()` draw, a value in `[0, 1)`. -/
def process_payment (clk : Clock) (genId : String) (r : ℚ)
    (amount : ℚ) (payment_method : String) (user_id : String)
    (description : String) (st : SysState) : Txn × SysState :=
  let status := if r < success_rate then "success" else "failed"
  let txn : Txn :=
    { id := genId, user_id := user_id, username := none,
      amount := amount, method := payment_method, status := status,
      type := none, description := description,
      date := clk.date, time := clk.time, timestamp := clk.timestamp,
      new_balance := none }
  (txn, { st with ledger := save_transaction st.ledger txn })

/-- `WalletManager.add_money` (payment_system.py:477-528).  Note: the ledger
line is written by `process_payment` before `new_balance` is attached, so
the ledger copy lacks `new_balance` while the returned record carries it. -/
def add_money (clk : Clock) (genId : String) (r : ℚ) (user_id : String)
    (amount : ℚ) (payment_method : String) (description : String)
    (st : SysState) : Except PayErr Txn × SysState :=
  if amount ≤ 0 then (.error .invalidAmount, st)
  else
    let pr := process_payment clk genId r amount payment_method user_id
      description st
    let txn := pr.1
    let st1 := pr.2
    if txn.status = "success" then
      let w : Wallet :=
        match lookupWallet st1.wallets user_id with
        | some w0 => w0
        | none =>
            { user_id := user_id, balance := 0,
              created_at := clk.timestamp, last_updated := clk.timestamp }
      let newBal := w.balance + amount
      let w1 := { w with balance := newBal, last_updated := clk.timestamp }
      (.ok { txn with new_balance := some newBal },
        { st1 with wallets := setWallet st1.wallets user_id w1 })
    else
      (.ok txn, st1)

/-- `WalletManager.deduct_money` (payment_system.py:530-585).  The success
path indexes `wallets[user_id]` directly; a missing key there is modelled
as `keyError`, exactly where Python would raise `KeyError`. -/
def deduct_money (clk : Clock) (genId : String) (user_id : String)
    (amount : ℚ) (description : String) (username : Option String)
    (st : SysState) : Except PayErr Txn × SysState :=
  if amount ≤ 0 then (.error .invalidAmount, st)
  else
    let current_balance : ℚ :=
      match lookupWallet st.wallets user_id with
      | some w => w.balance
      | none => 0
    if current_balance < amount then
      (.error (.insufficientBalance amount current_balance), st)
    else
      match lookupWallet st.wallets user_id with
      | none => (.error (.keyError user_id), st)
      | some w =>
          let newBal := current_balance - amount
          let w1 := { w with balance := newBal, last_updated := clk.timestamp }
          let txn : Txn :=
            { id := genId, user_id := user_id,
              username := some (username.getD ("User #" ++ user_id)),
              amount := amount, method := "wallet", status := "success",
              type := some "debit", description := description,
              date := clk.date, time := clk.time, timestamp := clk.timestamp,
              new_balance := some newBal }
          (.ok txn,
            { wallets := setWallet st.wallets user_id w1,
              ledger := save_transaction st.ledger txn })

/-- `WalletManager.credit_seller` (payment_system.py:587-639).  A missing
wallet is created first; `transaction_id or generate_transaction_id()`
is modelled by `Option.getD`. -/
def credit_seller (clk : Clock) (genId : String) (user_id : String)
    (amount : ℚ) (description : String) (username : Option String)
    (transaction_id : Option String) (st : SysState) :
    Except PayErr Txn × SysState :=
  if amount ≤ 0 then (.error .invalidAmount, st)
  else
    let w : Wallet :=
      match lookupWallet st.wallets user_id with
      | some w0 => w0
      | none =>
          { user_id := user_id, balance := 0,
            created_at := clk.timestamp, last_updated := clk.timestamp }
    let newBal := w.balance + amount
    let w1 := { w with balance := newBal, last_updated := clk.timestamp }
    let txn : Txn :=
      { id := transaction_id.getD genId, user_id := user_id,
        username := some (username.getD ("User #" ++ user_id)),
        amount := amount, method := "wallet", status := "success",
        type := some "credit", description := description,
        date := clk.date, time := clk.time, timestamp := clk.timestamp,
        new_balance := some newBal }
    (.ok txn,
      { wallets := setWallet st.wallets user_id w1,
        ledger := save_transaction st.ledger txn })

/-- `PaymentGateway.get_transaction` (payment_system.py:235-268).  The
`except json.JSONDecodeError: pass` sits OUTSIDE the scan loop, so the first
malformed line aborts the scan and the function falls through, returning
Python `None`, modelled as `.ok none`.  A full scan with no match raises
`TransactionNotFoundException`. -/
def get_transaction (ledger : Ledger) (txn_id : String)
    (user_id : Option String) : Except PayErr (Option Txn) :=
  match ledger with
  | [] => .error (.transactionNotFound txn_id)
  | none :: _ => .ok none
  | some t :: rest =>
      if t.id = txn_id then
        match user_id with
        | some uid =>
            if t.user_id ≠ uid then get_transaction rest txn_id user_id
            else .ok (some t)
        | none => .ok (some t)
      else get_transaction rest txn_id user_id

/-- The records on the valid (parseable) lines of the ledger, in file order. -/
def validTxns (ledger : Ledger) : List Txn := ledger.filterMap id

/-- The comparison `sort(key=lambda x: x.get('timestamp',''), reverse=True)`
induces: descending by timestamp string. -/
def txnLE (a b : Txn) : Bool := decide (b.timestamp ≤ a.timestamp)

/-- `PaymentGateway.get_all_transactions` (payment_system.py:304-327): the
per-line `try/except` skips malformed lines, then sorts newest-first. -/
def get_all_transactions (ledger : Ledger) : List Txn :=
  (validTxns ledger).mergeSort txnLE

/-- `PaymentGateway.get_user_transactions` (payment_system.py:270-302). -/
def get_user_transactions (ledger : Ledger) (user_id : String) : List Txn :=
  ((validTxns ledger).filter (fun t => t.user_id = user_id)).mergeSort txnLE

/-- `platform_fee_percent = 0.10` in `routes.place_order`. -/
def platform_fee_percent : ℚ := 1 / 10

/-- The settlement fragment of `routes.place_order` (routes.py:857-907):
debit the buyer for the order price, then credit the seller
`price * (1 - platform_fee_percent)` reusing the buyer transaction id. -/
def settle_order (clkD clkC : Clock) (gidD gidC : String)
    (buyer seller : String) (price : ℚ) (buyerName sellerName : String)
    (descD descC : String) (st : SysState) :
    Except PayErr (Txn × Txn) × SysState :=
  match deduct_money clkD gidD buyer price descD (some buyerName) st with
  | (.error e, st1) => (.error e, st1)
  | (.ok btxn, st1) =>
      let seller_amount := price * (1 - platform_fee_percent)
      match credit_seller clkC gidC seller seller_amount descC
          (some sellerName) (some btxn.id) st1 with
      | (.error e, st2) => (.error e, st2)
      | (.ok ctxn, st2) => (.ok (btxn, ctxn), st2)

/-! ### Invoice rendering (`InvoiceGenerator.generate_invoice_html`)

The description shown on the invoice is computed by
`re.sub(r'\s*\[MANUAL FIX\]\s*', '', description, flags=re.IGNORECASE).strip()`
(payment_system.py:713-715).  The regex has no empty match (it requires the
literal bracketed tag), `\s*` cannot backtrack usefully (whitespace never
matches `[`), so `re.sub` is: scan left to right; at each position, if a
maximal whitespace run followed by the case-insensitive tag starts here,
delete it together with the trailing whitespace run and resume after it,
otherwise keep the character. -/

/-- Python `\s` on the ASCII whitespace characters. -/
def pySpace (c : Char) : Bool :=
  c == ' ' || c == '\t' || c == '\n' || c == '\r' || c == '\x0b' || c == '\x0c'

/-- The tag pattern `[MANUAL FIX]`, lower-cased for `re.IGNORECASE`. -/
def tagLower : List Char := "[manual fix]".data

/-- Consume the pattern `ps` case-insensitively from the front of the input;
return the rest on success. -/
def dropTagCI : List Char → List Char → Option (List Char)
  | [], rest => some rest
  | _ :: _, [] => none
  | p :: ps, c :: cs => if c.toLower = p then dropTagCI ps cs else none

/-- A match of `\s*\[MANUAL FIX\]\s*` starting at the head of `l`:
returns the input after the match, or `none` when no match starts here. -/
def matchTag (l : List Char) : Option (List Char) :=
  match dropTagCI tagLower (l.dropWhile pySpace) with
  | some rest => some (rest.dropWhile pySpace)
  | none => none

/-- `re.sub` replacement loop; the fuel argument only bounds the recursion
(each step consumes at least one character, so `l.length` fuel suffices). -/
def removeTagAux : Nat → List Char → List Char
  | 0, l => l
  | _ + 1, [] => []
  | fuel + 1, c :: cs =>
      match matchTag (c :: cs) with
      | some rest => removeTagAux fuel rest
      | none => c :: removeTagAux fuel cs

/-- `re.sub(r'\s*\[MANUAL FIX\]\s*', '', l, flags=re.IGNORECASE)`. -/
def removeTag (l : List Char) : List Char := removeTagAux l.length l

/-- Python `str.strip()`: drop whitespace from both ends. -/
def pyStrip (l : List Char) : List Char :=
  ((l.dropWhile pySpace).reverse.dropWhile pySpace).reverse

/-- The description as shown on the invoice (payment_system.py:713-715):
tag removal followed by `.strip()`. -/
def clean_description (s : String) : String :=
  String.mk (pyStrip (removeTag s.data))

/-- The claim's wording of the description transformation, for refinement
comparison: every case-insensitive occurrence of `[MANUAL FIX]`, together
with its surrounding whitespace, removed — and nothing else. -/
def claimed_description (s : String) : String :=
  String.mk (removeTag s.data)

/-- The data interpolated into the rendered invoice document
(payment_system.py:688-919), keeping the displayed transformations:
upper-cased status and method, cleaned description. -/
structure InvoiceDoc where
  txn_id : String
  date : String
  time : String
  status_badge : String
  amount : ℚ
  description : String
  method_shown : String
  username : String
  generated_on : String
  deriving DecidableEq, Repr

/-- `InvoiceGenerator.generate_invoice_html`: a pure function of the supplied
transaction record (plus the footer clock reading); it touches neither the
ledger nor the wallet snapshot. -/
def generate_invoice_html (transaction : Txn) (now : String) : InvoiceDoc :=
  { txn_id := transaction.id
    date := transaction.date
    time := transaction.time
    status_badge := transaction.status.toUpper
    amount := transaction.amount
    description := clean_description transaction.description
    method_shown := transaction.method.toUpper
    username := transaction.username.getD ("User #" ++ transaction.user_id)
    generated_on := now }

/-! ### Concrete values for witnesses and counterexamples -/

/-- A fixed clock reading used in concrete witnesses. -/
def wClk : Clock :=
  { date := "2026-01-01", time := "00:00:00",
    timestamp := "2026-01-01T00:00:00" }

/-- The wallet of user 1 in the concrete witness state. -/
def wWallet : Wallet :=
  { user_id := "1"
    balance := 1000
    created_at := "2025-12-31T00:00:00"
    last_updated := "2025-12-31T00:00:00" }

/-- A concrete state: user 1 holds a wallet with balance 1000. -/
def wSt : SysState :=
  { wallets := [("1", wWallet)]
    ledger := [] }

/-- A concrete valid gateway record used to exercise `get_transaction`. -/
def txC2 : Txn :=
  { id := "TXN20260101000000123"
    user_id := "7"
    username := none
    amount := 50
    method := "card"
    status := "success"
    type := none
    description := "Recharge"
    date := "2026-01-01"
    time := "00:00:00"
    timestamp := "2026-01-01T00:00:00"
    new_balance := none }

/-- A concrete debit record whose description has surrounding whitespace
but no `[MANUAL FIX]` tag. -/
def txC9 : Txn :=
  { id := "TXN20260102100000321"
    user_id := "3"
    username := some "carol"
    amount := 10
    method := "wallet"
    status := "success"
    type := some "debit"
    description := " Refund for order "
    date := "2026-01-02"
    time := "10:00:00"
    timestamp := "2026-01-02T10:00:00"
    new_balance := some 90 }

/-! ### Supporting lemmas -/

theorem length_dropWhile_le {α : Type} (p : α → Bool) (l : List α) :
    (l.dropWhile p).length ≤ l.length := by
  induction l with
  | nil => simp [List.dropWhile]
  | cons c cs ih =>
      simp only [List.dropWhile]
      split
      · simp only [List.length_cons]; omega
      · exact Nat.le_refl _

theorem dropTagCI_length {ps l r : List Char} (h : dropTagCI ps l = some r) :
    r.length + ps.length = l.length := by
  induction ps generalizing l with
  | nil =>
      simp only [dropTagCI, Option.some.injEq] at h
      subst h; simp
  | cons p ps ih =>
      cases l with
      | nil => simp [dropTagCI] at h
      | cons c cs =>
          simp only [dropTagCI] at h
          split at h
          · have := ih h
            simp only [List.length_cons]
            omega
          · exact absurd h (by simp)

theorem matchTag_length {l r : List Char} (h : matchTag l = some r) :
    r.length < l.length := by
  unfold matchTag at h
  cases hd : dropTagCI tagLower (l.dropWhile pySpace) with
  | none => rw [hd] at h; exact absurd h (by simp)
  | some rest =>
      rw [hd] at h
      simp only [Option.some.injEq] at h
      have h1 := dropTagCI_length hd
      have h2 : (l.dropWhile pySpace).length ≤ l.length :=
        length_dropWhile_le _ _
      have h3 : (rest.dropWhile pySpace).length ≤ rest.length :=
        length_dropWhile_le _ _
      have h4 : tagLower.length = 12 := by decide
      subst h
      omega

theorem removeTagAux_congr :
    ∀ fuel1 fuel2 l, l.length ≤ fuel1 → l.length ≤ fuel2 →
      removeTagAux fuel1 l = removeTagAux fuel2 l := by
  intro fuel1
  induction fuel1 with
  | zero =>
      intro fuel2 l h1 _
      have : l = [] := List.length_eq_zero.mp (Nat.le_zero.mp h1)
      subst this
      cases fuel2 <;> rfl
  | succ f ih =>
      intro fuel2 l h1 h2
      cases l with
      | nil => cases fuel2 <;> rfl
      | cons c cs =>
          cases fuel2 with
          | zero => simp at h2
          | succ f2 =>
              simp only [List.length_cons] at h1 h2
              simp only [removeTagAux]
              cases hm : matchTag (c :: cs) with
              | some rest =>
                  have hl := matchTag_length hm
                  simp only [List.length_cons] at hl
                  exact ih f2 rest (by omega) (by omega)
              | none =>
                  rw [ih f2 cs (by omega) (by omega)]

theorem lookupWallet_setWallet_self (ws : Wallets) (uid : String) (w : Wallet) :
    lookupWallet (setWallet ws uid w) uid = some w := by
  induction ws with
  | nil => simp [setWallet, lookupWallet]
  | cons p rest ih =>
      obtain ⟨k, w0⟩ := p
      simp only [setWallet]
      split
      · next h => simp [lookupWallet, h]
      · next h => simp [lookupWallet, h, ih]

theorem lookupWallet_setWallet_ne (ws : Wallets) (uid uid' : String)
    (w : Wallet) (h : uid' ≠ uid) :
    lookupWallet (setWallet ws uid w) uid' = lookupWallet ws uid' := by
  induction ws with
  | nil => simp [setWallet, lookupWallet, Ne.symm h]
  | cons p rest ih =>
      obtain ⟨k, w0⟩ := p
      simp only [setWallet]
      split
      · next hk =>
          subst hk
          simp [lookupWallet, Ne.symm h]
      · next hk => simp [lookupWallet, ih]

/-- The recurrence the source loop satisfies: `removeTag` deletes a match at
the current position when there is one and otherwise keeps the character. -/
theorem removeTag_cons (c : Char) (cs : List Char) :
    removeTag (c :: cs) =
      match matchTag (c :: cs) with
      | some rest => removeTag rest
      | none => c :: removeTag cs := by
  unfold removeTag
  simp only [List.length_cons, removeTagAux]
  cases hm : matchTag (c :: cs) with
  | some rest =>
      have := matchTag_length hm
      exact removeTagAux_congr _ _ rest (by simp at this ⊢; omega) (le_refl _)
  | none => rfl

theorem txnLE_trans : ∀ a b c : Txn, txnLE a b → txnLE b c → txnLE a c := by
  intro a b c hab hbc
  simp only [txnLE, decide_eq_true_eq] at hab hbc ⊢
  exact le_trans hbc hab

theorem txnLE_total : ∀ a b : Txn, txnLE a b || txnLE b a := by
  intro a b
  simp only [txnLE, Bool.or_eq_true, decide_eq_true_eq]
  exact le_total _ _

/-! ### Claim theorems -/

/-- C3: for every amount ≤ 0 and every user, each of `add_money`,
`deduct_money` and `credit_seller` raises the invalid-amount exception
before any file I/O, leaving every wallet balance and the ledger
unchanged (the returned state is the input state). -/
theorem invalid_amount_rejected (clk : Clock) (genId : String) (r : ℚ)
    (uid : String) (method : String) (desc : String) (uname : Option String)
    (txid : Option String) (amount : ℚ) (st : SysState) (ha : amount ≤ 0) :
    add_money clk genId r uid amount method desc st =
      (.error .invalidAmount, st) ∧
    deduct_money clk genId uid amount desc uname st =
      (.error .invalidAmount, st) ∧
    credit_seller clk genId uid amount desc uname txid st =
      (.error .invalidAmount, st) := by
  refine ⟨?_, ?_, ?_⟩ <;> simp [add_money, deduct_money, credit_seller, ha]

/-- C3 witness: instantiation at amount `0` on a concrete state. -/
theorem invalid_amount_rejected_witness :
    (0 : ℚ) ≤ 0 ∧
    (add_money wClk "TXNW" 0 "1" 0 "card" "d" wSt =
        (.error .invalidAmount, wSt) ∧
      deduct_money wClk "TXNW" "1" 0 "d" none wSt =
        (.error .invalidAmount, wSt) ∧
      credit_seller wClk "TXNW" "1" 0 "d" none none wSt =
        (.error .invalidAmount, wSt)) :=
  ⟨le_refl 0, invalid_amount_rejected wClk "TXNW" 0 "1" "card" "d" none none
    0 wSt (le_refl 0)⟩

/-- C6: `create_wallet` is idempotent: starting from a state with no wallet
for `uid`, creating with `b1` and again with `b2` leaves the stored balance
at `b1`, the second call is a no-op on stored state, the first call's
return value is the stored record, and the second call returns it again. -/
theorem create_wallet_idempotent (clk1 clk2 : Clock) (uid : String)
    (b1 b2 : ℚ) (st : SysState) (h : lookupWallet st.wallets uid = none) :
    get_balance (create_wallet clk2 uid b2
      (create_wallet clk1 uid b1 st).2).2 uid = b1 ∧
    (create_wallet clk2 uid b2 (create_wallet clk1 uid b1 st).2).2 =
      (create_wallet clk1 uid b1 st).2 ∧
    lookupWallet (create_wallet clk1 uid b1 st).2.wallets uid =
      some (create_wallet clk1 uid b1 st).1 ∧
    (create_wallet clk2 uid b2 (create_wallet clk1 uid b1 st).2).1 =
      (create_wallet clk1 uid b1 st).1 := by
  simp [create_wallet, h, get_balance, lookupWallet_setWallet_self]

/-- C6 witness: create twice with balances 7 then 9 on an empty state. -/
theorem create_wallet_idempotent_witness :
    lookupWallet (SysState.mk [] []).wallets "5" = none ∧
    (get_balance (create_wallet wClk "5" 9
        (create_wallet wClk "5" 7 (SysState.mk [] [])).2).2 "5" = 7 ∧
      (create_wallet wClk "5" 9 (create_wallet wClk "5" 7
        (SysState.mk [] [])).2).2 =
        (create_wallet wClk "5" 7 (SysState.mk [] [])).2 ∧
      lookupWallet (create_wallet wClk "5" 7
        (SysState.mk [] [])).2.wallets "5" =
        some (create_wallet wClk "5" 7 (SysState.mk [] [])).1 ∧
      (create_wallet wClk "5" 9 (create_wallet wClk "5" 7
        (SysState.mk [] [])).2).1 =
        (create_wallet wClk "5" 7 (SysState.mk [] [])).1) :=
  ⟨rfl, create_wallet_idempotent wClk wClk "5" 7 9 (SysState.mk [] []) rfl⟩

/-- C8: `get_all_transactions` returns exactly the valid records of the
ledger (malformed lines skipped, no error possible) sorted by timestamp
descending, and `get_user_transactions` returns exactly the valid records
with matching `user_id`, sorted the same way. -/
theorem list_transactions_valid_sorted (ledger : Ledger) (uid : String) :
    (get_all_transactions ledger).Perm (validTxns ledger) ∧
    (get_all_transactions ledger).Pairwise
      (fun a b => b.timestamp ≤ a.timestamp) ∧
    (get_user_transactions ledger uid).Perm
      ((validTxns ledger).filter (fun t => t.user_id = uid)) ∧
    (get_user_transactions ledger uid).Pairwise
      (fun a b => b.timestamp ≤ a.timestamp) := by
  refine ⟨List.mergeSort_perm _ _, ?_, List.mergeSort_perm _ _, ?_⟩
  · exact (List.sorted_mergeSort txnLE_trans txnLE_total
      (validTxns ledger)).imp
      (fun hab => by simpa [txnLE, decide_eq_true_eq] using hab)
  · exact (List.sorted_mergeSort txnLE_trans txnLE_total
      ((validTxns ledger).filter (fun t => t.user_id = uid))).imp
      (fun hab => by simpa [txnLE, decide_eq_true_eq] using hab)

/-- C2 (code bug): on a ledger whose only lines are the record itself,
`get_transaction` finds it; but put one malformed line before it and the
scan aborts at that line — the `except json.JSONDecodeError: pass` handler
sits outside the loop — so the function returns Python `None`
(modelled `.ok none`): the later matching record is missed and
`TransactionNotFoundException` is not raised either, contradicting the
code's own `# Skip malformed lines` comment and docstring. -/
theorem malformed_line_aborts_find :
    get_transaction [some txC2] "TXN20260101000000123" none =
      .ok (some txC2) ∧
    get_transaction [none, some txC2] "TXN20260101000000123" none =
      .ok none := by
  exact ⟨by decide, rfl⟩

/-- C9 (counterexample): the invoice strips leading/trailing whitespace of
the whole description (`.strip()`), so for a description with surrounding
whitespace and no tag the shown text differs from the claim's
tag-occurrences-removed text. -/
theorem invoice_description_counterexample :
    (generate_invoice_html txC9 "2026-01-02 10:00:01").description ≠
      claimed_description txC9.description := by decide

/-- C9 (amended): the description shown on the invoice equals the record's
description with every case-insensitive occurrence of `[MANUAL FIX]`
(together with surrounding whitespace) removed, and the result then
stripped of leading and trailing whitespace; rendering is a pure function
of the supplied record and reads or mutates no ledger or wallet state. -/
theorem invoice_description_amended (t : Txn) (now : String) :
    (generate_invoice_html t now).description =
      String.mk (pyStrip (claimed_description t.description).data) := rfl

/-- C1: for every user and every amount > 0, `deduct_money` with stored
balance < amount raises the insufficient-balance exception carrying
`required = amount` and `available = stored balance` and leaves wallet
snapshot and ledger unchanged; with stored balance ≥ amount it succeeds,
the new stored balance is the old minus the amount, and a
`debit`/`wallet`/`success` record with `new_balance` equal to the new
stored balance is appended to the ledger and returned. -/
theorem deduct_money_spec (clk : Clock) (genId : String) (uid : String)
    (amount : ℚ) (desc : String) (uname : Option String) (st : SysState)
    (ha : 0 < amount) :
    (get_balance st uid < amount →
      deduct_money clk genId uid amount desc uname st =
        (.error (.insufficientBalance amount (get_balance st uid)), st)) ∧
    (amount ≤ get_balance st uid →
      ∃ txn : Txn,
        (deduct_money clk genId uid amount desc uname st).1 = .ok txn ∧
        txn.type = some "debit" ∧
        txn.method = "wallet" ∧
        txn.status = "success" ∧
        txn.new_balance = some (get_balance st uid - amount) ∧
        get_balance (deduct_money clk genId uid amount desc uname st).2 uid =
          get_balance st uid - amount ∧
        (deduct_money clk genId uid amount desc uname st).2.ledger =
          st.ledger ++ [some txn]) := by
  have hna : ¬ amount ≤ 0 := not_le.mpr ha
  cases hw : lookupWallet st.wallets uid with
  | none =>
      constructor
      · intro _
        simp [deduct_money, hna, get_balance, hw, ha]
      · intro hle
        rw [show get_balance st uid = 0 from by simp [get_balance, hw]] at hle
        exact absurd (lt_of_lt_of_le ha hle) (lt_irrefl 0)
  | some w =>
      have hgb : get_balance st uid = w.balance := by simp [get_balance, hw]
      constructor
      · intro hlt
        rw [hgb] at hlt
        simp [deduct_money, hna, hw, hgb, hlt]
      · intro hle
        rw [hgb] at hle
        have hnlt : ¬ w.balance < amount := not_lt.mpr hle
        refine ⟨{ id := genId
                  user_id := uid
                  username := some (uname.getD ("User #" ++ uid))
                  amount := amount
                  method := "wallet"
                  status := "success"
                  type := some "debit"
                  description := desc
                  date := clk.date
                  time := clk.time
                  timestamp := clk.timestamp
                  new_balance := some (w.balance - amount) },
          ?_, rfl, rfl, rfl, ?_, ?_, ?_⟩
        · simp [deduct_money, hna, hw, hnlt]
        · simp [hgb]
        · simp [deduct_money, hna, hw, hnlt, get_balance,
            lookupWallet_setWallet_self, hgb]
        · simp [deduct_money, hna, hw, hnlt, save_transaction]

/-- C1 witness: user 1 with balance 1000, amount 200. -/
theorem deduct_money_spec_witness :
    (0 : ℚ) < 200 ∧
    ((get_balance wSt "1" < 200 →
      deduct_money wClk "TXNW1" "1" 200 "d" none wSt =
        (.error (.insufficientBalance 200 (get_balance wSt "1")), wSt)) ∧
    (200 ≤ get_balance wSt "1" →
      ∃ txn : Txn,
        (deduct_money wClk "TXNW1" "1" 200 "d" none wSt).1 = .ok txn ∧
        txn.type = some "debit" ∧
        txn.method = "wallet" ∧
        txn.status = "success" ∧
        txn.new_balance = some (get_balance wSt "1" - 200) ∧
        get_balance (deduct_money wClk "TXNW1" "1" 200 "d" none wSt).2 "1" =
          get_balance wSt "1" - 200 ∧
        (deduct_money wClk "TXNW1" "1" 200 "d" none wSt).2.ledger =
          wSt.ledger ++ [some txn])) :=
  ⟨by decide, deduct_money_spec wClk "TXNW1" "1" 200 "d" none wSt (by decide)⟩

/-- C10: for a user with no stored wallet and amount > 0, `deduct_money`
fails with the insufficient-balance exception carrying `available = 0` and
`required = amount` rather than a key-lookup error; and for any state the
wallet-dictionary index on the success path never raises a key error. -/
theorem deduct_money_no_keyerror (clk : Clock) (genId : String)
    (uid : String) (amount : ℚ) (desc : String) (uname : Option String)
    (st : SysState) (ha : 0 < amount) :
    (lookupWallet st.wallets uid = none →
      (deduct_money clk genId uid amount desc uname st).1 =
        .error (.insufficientBalance amount 0)) ∧
    ∀ k : String,
      (deduct_money clk genId uid amount desc uname st).1 ≠
        .error (.keyError k) := by
  have hna : ¬ amount ≤ 0 := not_le.mpr ha
  constructor
  · intro hw
    simp [deduct_money, hna, hw, ha]
  · intro k
    cases hw : lookupWallet st.wallets uid with
    | none => simp [deduct_money, hna, hw, ha]
    | some w =>
        by_cases hlt : w.balance < amount
        · simp [deduct_money, hna, hw, hlt]
        · simp [deduct_money, hna, hw, hlt]

/-- C10 witness: user 9 has no wallet in the concrete state; amount 5. -/
theorem deduct_money_no_keyerror_witness :
    (0 : ℚ) < 5 ∧
    ((lookupWallet wSt.wallets "9" = none →
      (deduct_money wClk "TXNW9" "9" 5 "d" none wSt).1 =
        .error (.insufficientBalance 5 0)) ∧
    ∀ k : String,
      (deduct_money wClk "TXNW9" "9" 5 "d" none wSt).1 ≠
        .error (.keyError k)) :=
  ⟨by decide, deduct_money_no_keyerror wClk "TXNW9" "9" 5 "d" none wSt
    (by decide)⟩

/-- C4: for every amount > 0 and any gateway draw in `[0, 1)`, `add_money`
returns a `success` record (the configured success rate is 1.0 so the
non-success branch is never taken), the stored balance grows by the
amount, and the returned record carries `new_balance` equal to the new
stored balance. -/
theorem add_money_success (clk : Clock) (genId : String) (r : ℚ)
    (uid : String) (amount : ℚ) (method : String) (desc : String)
    (st : SysState) (_hr0 : 0 ≤ r) (hr1 : r < 1) (ha : 0 < amount) :
    ∃ txn : Txn,
      (add_money clk genId r uid amount method desc st).1 = .ok txn ∧
      txn.status = "success" ∧
      txn.new_balance = some (get_balance st uid + amount) ∧
      get_balance (add_money clk genId r uid amount method desc st).2 uid =
        get_balance st uid + amount := by
  have hna : ¬ amount ≤ 0 := not_le.mpr ha
  have hrs : r < success_rate := by simpa [success_rate] using hr1
  cases hw : lookupWallet st.wallets uid with
  | none =>
      refine ⟨{ id := genId
                user_id := uid
                username := none
                amount := amount
                method := method
                status := "success"
                type := none
                description := desc
                date := clk.date
                time := clk.time
                timestamp := clk.timestamp
                new_balance := some (0 + amount) }, ?_, rfl, ?_, ?_⟩
      · simp [add_money, hna, process_payment, hrs, hw]
      · simp [get_balance, hw]
      · simp [add_money, hna, process_payment, hrs, hw, get_balance,
          lookupWallet_setWallet_self]
  | some w =>
      have hgb : get_balance st uid = w.balance := by simp [get_balance, hw]
      refine ⟨{ id := genId
                user_id := uid
                username := none
                amount := amount
                method := method
                status := "success"
                type := none
                description := desc
                date := clk.date
                time := clk.time
                timestamp := clk.timestamp
                new_balance := some (w.balance + amount) }, ?_, rfl, ?_, ?_⟩
      · simp [add_money, hna, process_payment, hrs, hw]
      · simp [hgb]
      · simp [add_money, hna, process_payment, hrs, hw, get_balance,
          lookupWallet_setWallet_self, hgb]

/-- C4 witness: user 2 starts with no wallet (balance 0);
`add_money(2, 500, card, Test)` yields a success record with
`new_balance = 0 + 500`. -/
theorem add_money_success_witness :
    (0 : ℚ) ≤ 0 ∧ (0 : ℚ) < 1 ∧ (0 : ℚ) < 500 ∧
    ∃ txn : Txn,
      (add_money wClk "TXNW2" 0 "2" 500 "card" "Test" wSt).1 = .ok txn ∧
      txn.status = "success" ∧
      txn.new_balance = some (get_balance wSt "2" + 500) ∧
      get_balance (add_money wClk "TXNW2" 0 "2" 500 "card" "Test" wSt).2 "2" =
        get_balance wSt "2" + 500 :=
  ⟨le_refl 0, by decide, by decide,
    add_money_success wClk "TXNW2" 0 "2" 500 "card" "Test" wSt
      (le_refl 0) (by decide) (by decide)⟩

/-- C7: a record appended to a ledger whose other lines are all valid and
do not reuse its id is found again by `get_transaction`, field-for-field
equal, whether or not the optional `user_id` filter (set to the record's
own `user_id`) is supplied. -/
theorem append_find_roundtrip (ledger : Ledger) (r : Txn)
    (hvalid : ∀ l ∈ ledger, l ≠ none)
    (hid : ∀ t : Txn, some t ∈ ledger → t.id ≠ r.id)
    (uidArg : Option String)
    (huid : uidArg = none ∨ uidArg = some r.user_id) :
    get_transaction (save_transaction ledger r) r.id uidArg =
      .ok (some r) := by
  induction ledger with
  | nil =>
      rcases huid with h | h <;> subst h <;>
        simp [save_transaction, get_transaction]
  | cons l rest ih =>
      have hvalid' : ∀ x ∈ rest, x ≠ none :=
        fun x hx => hvalid x (List.mem_cons_of_mem _ hx)
      have hid' : ∀ t : Txn, some t ∈ rest → t.id ≠ r.id :=
        fun t ht => hid t (List.mem_cons_of_mem _ ht)
      cases l with
      | none => exact absurd rfl (hvalid none (List.mem_cons_self _ _))
      | some t =>
          have hne : t.id ≠ r.id := hid t (List.mem_cons_self _ _)
          simpa [save_transaction, get_transaction, hne] using ih hvalid' hid'

/-- C7 witness: append the debit record after one unrelated valid line and
find it again by its id. -/
theorem append_find_roundtrip_witness :
    get_transaction (save_transaction [some txC2] txC9) txC9.id none =
      .ok (some txC9) :=
  append_find_roundtrip [some txC2] txC9
    (by intro l hl
        simp only [List.mem_singleton] at hl
        subst hl
        simp)
    (by intro t ht
        simp only [List.mem_singleton, Option.some.injEq] at ht
        subst ht
        decide)
    none (Or.inl rfl)

/-- C5: settling an order of price P with fee rate 0.10, from a buyer whose
balance covers P, debits the buyer by P, credits the seller
`P * (1 - 0.10)`, reuses the buyer-debit transaction id on the
seller-credit record, and appends both records to the ledger. -/
theorem settle_order_spec (clkD clkC : Clock) (gidD gidC : String)
    (buyer seller : String) (price : ℚ) (buyerName sellerName : String)
    (descD descC : String) (st : SysState) (hp : 0 < price)
    (hb : price ≤ get_balance st buyer) (hne : buyer ≠ seller) :
    ∃ bt ct : Txn,
      (settle_order clkD clkC gidD gidC buyer seller price buyerName
        sellerName descD descC st).1 = .ok (bt, ct) ∧
      get_balance (settle_order clkD clkC gidD gidC buyer seller price
        buyerName sellerName descD descC st).2 buyer =
        get_balance st buyer - price ∧
      get_balance (settle_order clkD clkC gidD gidC buyer seller price
        buyerName sellerName descD descC st).2 seller =
        get_balance st seller + price * (1 - platform_fee_percent) ∧
      ct.id = bt.id ∧
      (settle_order clkD clkC gidD gidC buyer seller price buyerName
        sellerName descD descC st).2.ledger =
        st.ledger ++ [some bt, some ct] := by
  have hna : ¬ price ≤ 0 := not_le.mpr hp
  have hfee : (0 : ℚ) < 1 - platform_fee_percent := by
    norm_num [platform_fee_percent]
  have hsa : ¬ price * (1 - platform_fee_percent) ≤ 0 :=
    not_le.mpr (mul_pos hp hfee)
  cases hwb : lookupWallet st.wallets buyer with
  | none =>
      rw [show get_balance st buyer = 0 from by simp [get_balance, hwb]] at hb
      exact absurd (lt_of_lt_of_le hp hb) (lt_irrefl 0)
  | some wb =>
      have hgb : get_balance st buyer = wb.balance := by
        simp [get_balance, hwb]
      rw [hgb] at hb
      have hnlt : ¬ wb.balance < price := not_lt.mpr hb
      have hlk : lookupWallet (setWallet st.wallets buyer
          { wb with balance := wb.balance - price,
                    last_updated := clkD.timestamp }) seller =
          lookupWallet st.wallets seller :=
        lookupWallet_setWallet_ne _ _ _ _ (Ne.symm hne)
      cases hws : lookupWallet st.wallets seller with
      | none =>
          have hgs : get_balance st seller = 0 := by simp [get_balance, hws]
          refine ⟨{ id := gidD
                    user_id := buyer
                    username := some buyerName
                    amount := price
                    method := "wallet"
                    status := "success"
                    type := some "debit"
                    description := descD
                    date := clkD.date
                    time := clkD.time
                    timestamp := clkD.timestamp
                    new_balance := some (wb.balance - price) },
                  { id := gidD
                    user_id := seller
                    username := some sellerName
                    amount := price * (1 - platform_fee_percent)
                    method := "wallet"
                    status := "success"
                    type := some "credit"
                    description := descC
                    date := clkC.date
                    time := clkC.time
                    timestamp := clkC.timestamp
                    new_balance :=
                      some (0 + price * (1 - platform_fee_percent)) },
            ?_, ?_, ?_, rfl, ?_⟩
          · simp [settle_order, deduct_money, credit_seller, hna, hwb,
              hnlt, hsa, hlk, hws, save_transaction]
          · simp [settle_order, deduct_money, credit_seller, hna, hwb,
              hnlt, hsa, hlk, hws, save_transaction, get_balance, hgb,
              lookupWallet_setWallet_ne _ _ _ _ hne,
              lookupWallet_setWallet_self]
          · simp [settle_order, deduct_money, credit_seller, hna, hwb,
              hnlt, hsa, hlk, hws, save_transaction, get_balance, hgs,
              lookupWallet_setWallet_self]
          · simp [settle_order, deduct_money, credit_seller, hna, hwb,
              hnlt, hsa, hlk, hws, save_transaction]
      | some ws =>
          have hgs : get_balance st seller = ws.balance := by
            simp [get_balance, hws]
          refine ⟨{ id := gidD
                    user_id := buyer
                    username := some buyerName
                    amount := price
                    method := "wallet"
                    status := "success"
                    type := some "debit"
                    description := descD
                    date := clkD.date
                    time := clkD.time
                    timestamp := clkD.timestamp
                    new_balance := some (wb.balance - price) },
                  { id := gidD
                    user_id := seller
                    username := some sellerName
                    amount := price * (1 - platform_fee_percent)
                    method := "wallet"
                    status := "success"
                    type := some "credit"
                    description := descC
                    date := clkC.date
                    time := clkC.time
                    timestamp := clkC.timestamp
                    new_balance :=
                      some (ws.balance + price * (1 - platform_fee_percent)) },
            ?_, ?_, ?_, rfl, ?_⟩
          · simp [settle_order, deduct_money, credit_seller, hna, hwb,
              hnlt, hsa, hlk, hws, save_transaction]
          · simp [settle_order, deduct_money, credit_seller, hna, hwb,
              hnlt, hsa, hlk, hws, save_transaction, get_balance, hgb,
              lookupWallet_setWallet_ne _ _ _ _ hne,
              lookupWallet_setWallet_self]
          · simp [settle_order, deduct_money, credit_seller, hna, hwb,
              hnlt, hsa, hlk, hws, save_transaction, get_balance, hgs,
              lookupWallet_setWallet_self]
          · simp [settle_order, deduct_money, credit_seller, hna, hwb,
              hnlt, hsa, hlk, hws, save_transaction]

/-- C5 witness: buyer 1 with balance 1000, price 200: buyer ends at 800,
seller 2 gains 180, both records share the buyer transaction id. -/
theorem settle_order_spec_witness :
    (0 : ℚ) < 200 ∧ (200 : ℚ) ≤ get_balance wSt "1" ∧ "1" ≠ "2" ∧
    ∃ bt ct : Txn,
      (settle_order wClk wClk "TXNW5" "TXNW6" "1" "2" 200 "alice" "bob"
        "buy" "recv" wSt).1 = .ok (bt, ct) ∧
      get_balance (settle_order wClk wClk "TXNW5" "TXNW6" "1" "2" 200
        "alice" "bob" "buy" "recv" wSt).2 "1" =
        get_balance wSt "1" - 200 ∧
      get_balance (settle_order wClk wClk "TXNW5" "TXNW6" "1" "2" 200
        "alice" "bob" "buy" "recv" wSt).2 "2" =
        get_balance wSt "2" + 200 * (1 - platform_fee_percent) ∧
      ct.id = bt.id ∧
      (settle_order wClk wClk "TXNW5" "TXNW6" "1" "2" 200 "alice" "bob"
        "buy" "recv" wSt).2.ledger =
        wSt.ledger ++ [some bt, some ct] :=
  ⟨by decide, by decide, by decide,
    settle_order_spec wClk wClk "TXNW5" "TXNW6" "1" "2" 200 "alice" "bob"
      "buy" "recv" wSt (by decide) (by decide) (by decide)⟩

end SkillVerse
